import Mathlib

/-! Shallow embedding of the authentication / lifecycle layer of the
github-mcp-server SSE wrapper, and theorems about it.

Embedded source files:
- internal/ghmcp/auth.go (identity extraction, context attachment, the two
  authentication middlewares),
- internal/ghmcp/sse_auth_wrapper.go (routing surface, CORS envelope,
  health/status endpoints, shutdown select logic).

Modelling conventions:
- An HTTP header map is a total function from canonical header names to
  strings; Go's Header.Get returns "" for an absent header, so absence and
  empty value coincide, exactly as in the Go code.
- A handler is a function from request, request context and response-writer
  state to the final response-writer state.  Go's http.ResponseWriter is
  modelled as a record of optional status code (first WriteHeader wins, Write
  defaults it to 200), response headers and accumulated body.
- Go's context.Context is modelled as a map from string keys to optional
  UserContext values; this captures WithValue / Value for the single key the
  code uses.
- Wall-clock time (time.Now().Format(time.RFC3339)) is an opaque string
  parameter threaded into the handlers that read the clock.
-/

namespace GhMcp

instance {α β : Type} [DecidableEq α] [DecidableEq β] : DecidableEq (Except α β) :=
  fun a b =>
    match a, b with
    | Except.error x, Except.error y =>
      if h : x = y then isTrue (by rw [h]) else isFalse (by intro hc; cases hc; exact h rfl)
    | Except.error _, Except.ok _ => isFalse (by intro hc; cases hc)
    | Except.ok _, Except.error _ => isFalse (by intro hc; cases hc)
    | Except.ok x, Except.ok y =>
      if h : x = y then isTrue (by rw [h]) else isFalse (by intro hc; cases hc; exact h rfl)

/-- Models Go strings.HasPrefix: true when p is a prefix of s. -/
def hasPfx (s p : String) : Bool :=
  p.data.isPrefixOf s.data

/-- Models Go strings.TrimPrefix: removes the leading prefix p from s when
present, otherwise returns s unchanged. -/
def trimPfx (s p : String) : String :=
  if hasPfx s p then ⟨s.data.drop p.data.length⟩ else s

/-- UserContext from auth.go: user information extracted from gateway
headers. -/
structure UserContext where
  UserID : String
  Email : String
  Name : String
  SessionID : String
  Token : String
  RequestID : String
deriving DecidableEq, Repr

/-- An inbound HTTP request: method, URL path, remote address and the header
map (Header.Get semantics: absent header reads as ""). -/
structure Request where
  method : String
  path : String
  remoteAddr : String
  header : String → String

/-- Go context.Context restricted to the value shape this code stores:
a map from context keys to optional UserContext. -/
def Context : Type := String → Option UserContext

/-- context.Background(): no values attached. -/
def Context.background : Context := fun _ => none

/-- The process-unique context key from auth.go
(contextKey "user_context"). -/
def userContextKey : String := "user_context"

/-- context.WithValue for this code's single key/value shape. -/
def Context.withValue (ctx : Context) (k : String) (v : UserContext) : Context :=
  fun q => if q = k then some v else ctx q

/-- WithUserContext from auth.go: adds user context to the request
context. -/
def WithUserContext (ctx : Context) (userCtx : UserContext) : Context :=
  ctx.withValue userContextKey userCtx

/-- GetUserContext from auth.go: retrieves user context from the request
context, returning the record and a presence boolean. -/
def GetUserContext (ctx : Context) : Option UserContext × Bool :=
  match ctx userContextKey with
  | some userCtx => (some userCtx, true)
  | none => (none, false)

/-- extractUserContext from auth.go: extracts user information from HTTP
headers, or fails with the classified error message. -/
def extractUserContext (r : Request) : Except String UserContext :=
  let authHeader := r.header "Authorization"
  if authHeader = "" then
    Except.error "missing Authorization header"
  else if hasPfx authHeader "Bearer " = false then
    Except.error "invalid Authorization header format"
  else
    let token := trimPfx authHeader "Bearer "
    let userID := r.header "X-User-ID"
    let email := r.header "X-User-Email"
    let name := r.header "X-User-Name"
    let sessionID := r.header "X-Session-ID"
    let requestID := r.header "X-Gateway-Request-ID"
    if userID = "" ∨ email = "" then
      Except.error "missing required user context headers (X-User-ID or X-User-Email)"
    else
      Except.ok
        { UserID := userID, Email := email, Name := name,
          SessionID := sessionID, Token := token, RequestID := requestID }

/-- Helper for building concrete test requests: header map from an
association list, with Header.Get's empty-string default. -/
def mkRequest (m p : String) (hs : List (String × String)) : Request :=
  { method := m, path := p, remoteAddr := "192.0.2.1:54321",
    header := fun k => (((hs.find? (fun q => q.1 == k)).map (fun q => q.2)).getD "") }

/-- State of an http.ResponseWriter: status code once written (first
WriteHeader wins), response headers, accumulated body bytes. -/
structure ResponseWriter where
  status : Option Nat
  headers : List (String × String)
  body : String
deriving DecidableEq, Repr

/-- A fresh response writer, as each request's handler chain receives it. -/
def ResponseWriter.empty : ResponseWriter := ⟨none, [], ""⟩

/-- w.Header().Set(k, v): replaces any existing value for the key. -/
def ResponseWriter.setHeader (w : ResponseWriter) (k v : String) : ResponseWriter :=
  { w with headers := (k, v) :: w.headers.filter (fun q => q.1 != k) }

/-- Reads a response header value (for stating properties). -/
def ResponseWriter.getHeader (w : ResponseWriter) (k : String) : Option String :=
  (w.headers.find? (fun q => q.1 == k)).map (fun q => q.2)

/-- w.WriteHeader(code): records the status; later calls have no effect. -/
def ResponseWriter.writeHeader (w : ResponseWriter) (code : Nat) : ResponseWriter :=
  match w.status with
  | some _ => w
  | none => { w with status := some code }

/-- w.Write(bytes): appends to the body, defaulting the status to 200 when
no WriteHeader has happened yet. -/
def ResponseWriter.write (w : ResponseWriter) (s : String) : ResponseWriter :=
  { w with status := some (w.status.getD 200), body := w.body ++ s }

/-- An http.Handler: consumes the request, its context and the writer state,
and yields the final writer state. -/
def Handler : Type := Request → Context → ResponseWriter → ResponseWriter

/-- The JSON body the strict middleware writes on extraction failure. -/
def authFailureBody (reason : String) : String :=
  "\x7b\"error\":\"authentication required\",\"message\":\"" ++ reason ++ "\"\x7d"

/-- AuthenticationMiddleware from auth.go (strict policy): on extraction
failure answer 401 with a JSON error body and stop; on success attach the
record to the context and invoke the downstream handler. -/
def AuthenticationMiddleware (next : Handler) : Handler := fun r ctx w =>
  match extractUserContext r with
  | Except.error e =>
    (((w.setHeader "Content-Type" "application/json").writeHeader 401).write
      (authFailureBody e))
  | Except.ok userCtx => next r (WithUserContext ctx userCtx) w

/-- OptionalAuthenticationMiddleware from auth.go: on extraction failure
continue to the downstream handler with no identity attached; on success
attach the record exactly as the strict variant does. -/
def OptionalAuthenticationMiddleware (next : Handler) : Handler := fun r ctx w =>
  match extractUserContext r with
  | Except.error _ => next r ctx w
  | Except.ok userCtx => next r (WithUserContext ctx userCtx) w

/-- The Access-Control-Allow-Headers value from sse_auth_wrapper.go. -/
def corsAllowHeaders : String :=
  "Authorization, Content-Type, X-User-ID, X-User-Email, X-User-Name, X-Session-ID, X-Gateway-Request-ID"

/-- addSimpleCORS from sse_auth_wrapper.go: stamps the three CORS headers on
every response, answers OPTIONS with 200 immediately, forwards otherwise. -/
def addSimpleCORS (next : Handler) : Handler := fun r ctx w =>
  let w1 := w.setHeader "Access-Control-Allow-Origin" "*"
  let w2 := w1.setHeader "Access-Control-Allow-Methods" "GET, POST, PUT, DELETE, OPTIONS"
  let w3 := w2.setHeader "Access-Control-Allow-Headers" corsAllowHeaders
  if r.method = "OPTIONS" then
    w3.writeHeader 200
  else
    next r ctx w3

/-- The fields of SSEServerConfig that the routed behaviour reads. -/
structure SSEServerConfig where
  version : String
  host : String
  token : String
  readOnly : Bool
  listenAddr : String
  baseURL : String
  basePath : String
deriving DecidableEq, Repr

/-- The /health response body, with now standing for
time.Now().Format(time.RFC3339). -/
def healthBody (now : String) : String :=
  "\x7b\"status\":\"healthy\",\"timestamp\":\"" ++ now ++ "\"\x7d"

/-- The /status response body produced by the fmt.Sprintf call, byte for
byte, with %t rendered as true/false. -/
def statusBody (version host : String) (authRequired readOnly : Bool) (now : String) : String :=
  "\x7b\n\t\t\t\"status\": \"running\",\n\t\t\t\"version\": \"" ++ version ++
  "\",\n\t\t\t\"host\": \"" ++ host ++
  "\",\n\t\t\t\"authentication_required\": " ++ (if authRequired then "true" else "false") ++
  ",\n\t\t\t\"read_only\": " ++ (if readOnly then "true" else "false") ++
  ",\n\t\t\t\"timestamp\": \"" ++ now ++ "\"\n\t\t\x7d"

/-- The /health handler registered on the mux (no authentication). -/
def healthHandler (now : String) : Handler := fun _ _ w =>
  (((w.setHeader "Content-Type" "application/json").writeHeader 200).write (healthBody now))

/-- The /status handler registered on the mux (no authentication); reports
authentication_required as the negation of allowUnauthenticated. -/
def statusHandler (cfg : SSEServerConfig) (allowUnauthenticated : Bool) (now : String) :
    Handler := fun _ _ w =>
  (((w.setHeader "Content-Type" "application/json").writeHeader 200).write
    (statusBody cfg.version cfg.host (!allowUnauthenticated) cfg.readOnly now))

/-- http.ServeMux fallthrough: 404 not found. -/
def notFoundHandler : Handler := fun _ _ w =>
  ((w.writeHeader 404).write "404 page not found\n")

/-- The authentication middleware chosen from the allow-unauthenticated
flag, as in RunSSEServerWithSimpleAuth. -/
def chooseAuthMiddleware (allowUnauthenticated : Bool) : Handler → Handler :=
  if allowUnauthenticated then OptionalAuthenticationMiddleware else AuthenticationMiddleware

/-- The mux built by RunSSEServerWithSimpleAuth: /health and /status without
authentication, basePath/sse and basePath/message behind the chosen
middleware, 404 elsewhere.  sseH and msgH stand for the engine's
sseServer.SSEHandler() and sseServer.MessageHandler(). -/
def serveMuxHandler (cfg : SSEServerConfig) (allowUnauthenticated : Bool) (now : String)
    (sseH msgH : Handler) : Handler := fun r ctx w =>
  if r.path = "/health" then healthHandler now r ctx w
  else if r.path = "/status" then statusHandler cfg allowUnauthenticated now r ctx w
  else if r.path = cfg.basePath ++ "/sse" then
    chooseAuthMiddleware allowUnauthenticated sseH r ctx w
  else if r.path = cfg.basePath ++ "/message" then
    chooseAuthMiddleware allowUnauthenticated msgH r ctx w
  else notFoundHandler r ctx w

/-- The complete handler RunSSEServerWithSimpleAuth installs on the HTTP
server: the CORS envelope wrapping the mux. -/
def serverHandler (cfg : SSEServerConfig) (allowUnauthenticated : Bool) (now : String)
    (sseH msgH : Handler) : Handler :=
  addSimpleCORS (serveMuxHandler cfg allowUnauthenticated now sseH msgH)

/-- Go error values distinguished by the shutdown select logic. -/
inductive GoError where
  | errServerClosed
  | other (msg : String)
deriving DecidableEq, Repr

/-- Which of the two raced wait sources resolved first in the select of
RunSSEServerWithSimpleAuth: context cancellation from a termination signal,
or the value received from the listener's error channel. -/
inductive RunEvent where
  | ctxDone
  | listenerResult (e : Option GoError)
deriving DecidableEq, Repr

/-- How the tail of RunSSEServerWithSimpleAuth exits: through the graceful
30-second Shutdown drain (returning Shutdown's result), or immediately with
an error and no drain. -/
inductive ServerOutcome where
  | drainThenExit (budgetSeconds : Nat) (shutdownErr : Option GoError)
  | exitWithoutDrain (errMsg : String)
deriving DecidableEq, Repr

/-- True exactly when the outcome goes through the Shutdown drain path. -/
def ServerOutcome.isDrain : ServerOutcome → Bool
  | ServerOutcome.drainThenExit _ _ => true
  | ServerOutcome.exitWithoutDrain _ => false

/-- The select-and-shutdown tail of RunSSEServerWithSimpleAuth: on context
cancellation, or on a nil or http.ErrServerClosed listener result, run the
30-second graceful Shutdown and return its result; on any other listener
error return the wrapped error at once, without draining.  shutdownErr
stands for what httpServer.Shutdown would return. -/
def runServerSelect (ev : RunEvent) (shutdownErr : Option GoError) : ServerOutcome :=
  match ev with
  | RunEvent.ctxDone => ServerOutcome.drainThenExit 30 shutdownErr
  | RunEvent.listenerResult e =>
    match e with
    | none => ServerOutcome.drainThenExit 30 shutdownErr
    | some GoError.errServerClosed => ServerOutcome.drainThenExit 30 shutdownErr
    | some (GoError.other m) =>
      ServerOutcome.exitWithoutDrain ("error running server: " ++ m)

/-- A concrete downstream handler used to instantiate statements: it writes
a body depending on whether an identity is attached to the context. -/
def probeHandler : Handler := fun _ ctx w =>
  w.write (match GetUserContext ctx with
           | (some u, _) => "user:" ++ u.UserID
           | (none, _) => "anon")

/-- The six request headers the identity extractor reads. -/
def identityHeaders : List String :=
  ["Authorization", "X-User-ID", "X-User-Email", "X-User-Name", "X-Session-ID",
   "X-Gateway-Request-ID"]

/-! ### Helper lemmas -/

theorem emptyStr_append (s : String) : "" ++ s = s := by
  apply String.ext
  rw [String.data_append]
  rfl

theorem bearer_ne_empty (s : String) (h : hasPfx s "Bearer " = true) : s ≠ "" := by
  intro he
  subst he
  exact absurd h (by decide)

theorem hasPfx_recover (s p : String) (h : hasPfx s p = true) : s = p ++ trimPfx s p := by
  unfold hasPfx at h
  rw [ List.isPrefixOf_iff_prefix] at h
  obtain ⟨t, ht⟩ := h
  unfold trimPfx
  rw [if_pos (by unfold hasPfx; rw [ List.isPrefixOf_iff_prefix]; exact ⟨t, ht⟩)]
  apply String.ext
  rw [String.data_append]
  show s.data = p.data ++ (s.data.drop p.data.length)
  rw [← ht, List.drop_left]

/-- Inversion of extraction success: exactly the requests with a bearer
Authorization header and non-empty X-User-ID and X-User-Email succeed, and
the record is determined by the header reads. -/
theorem extractUserContext_ok_iff (r : Request) (u : UserContext) :
    extractUserContext r = Except.ok u ↔
      (r.header "Authorization" ≠ "" ∧
       hasPfx (r.header "Authorization") "Bearer " = true ∧
       r.header "X-User-ID" ≠ "" ∧ r.header "X-User-Email" ≠ "" ∧
       u = { UserID := r.header "X-User-ID", Email := r.header "X-User-Email",
             Name := r.header "X-User-Name", SessionID := r.header "X-Session-ID",
             Token := trimPfx (r.header "Authorization") "Bearer ",
             RequestID := r.header "X-Gateway-Request-ID" }) := by
  by_cases h1 : r.header "Authorization" = ""
  · simp [extractUserContext, h1]
  · by_cases h2 : hasPfx (r.header "Authorization") "Bearer " = true
    · by_cases h3 : r.header "X-User-ID" = "" ∨ r.header "X-User-Email" = ""
      · simp [extractUserContext, h1, h2, h3]
        intro h
        rcases h3 with h3 | h3 <;> simp [h3] at h ⊢
      · rw [not_or] at h3
        simp [extractUserContext, h1, h2, h3.1, h3.2, eq_comm]
    · have h2f : hasPfx (r.header "Authorization") "Bearer " = false := by
        revert h2; cases hasPfx (r.header "Authorization") "Bearer " <;> simp
      simp [extractUserContext, h1, h2f, h2]

/-! ### Claims -/

/-- Claim C1: identity extraction follows the ordered classification — a
missing Authorization header fails with the missing-credential error; a
non-bearer value fails with the malformed-credential error; otherwise the
prefix is stripped (an empty remaining token is accepted); then an empty
X-User-ID or X-User-Email fails with the missing-identity-claims error;
otherwise the record is returned with the stripped token, the two required
claims and the three optional headers read opportunistically. -/
theorem C1_extraction_ordered_classification (r : Request) :
    (r.header "Authorization" = "" →
      extractUserContext r = Except.error "missing Authorization header")
  ∧ (r.header "Authorization" ≠ "" →
      hasPfx (r.header "Authorization") "Bearer " = false →
      extractUserContext r = Except.error "invalid Authorization header format")
  ∧ (hasPfx (r.header "Authorization") "Bearer " = true →
      (r.header "X-User-ID" = "" ∨ r.header "X-User-Email" = "") →
      extractUserContext r =
        Except.error "missing required user context headers (X-User-ID or X-User-Email)")
  ∧ (hasPfx (r.header "Authorization") "Bearer " = true →
      r.header "X-User-ID" ≠ "" → r.header "X-User-Email" ≠ "" →
      extractUserContext r = Except.ok
        { UserID := r.header "X-User-ID", Email := r.header "X-User-Email",
          Name := r.header "X-User-Name", SessionID := r.header "X-Session-ID",
          Token := trimPfx (r.header "Authorization") "Bearer ",
          RequestID := r.header "X-Gateway-Request-ID" }) := by
  refine ⟨?_, ?_, ?_, ?_⟩
  · intro h
    simp [extractUserContext, h]
  · intro h1 h2
    simp [extractUserContext, h1, h2]
  · intro h hor
    have hne := bearer_ne_empty _ h
    simp [extractUserContext, hne, h, hor]
  · intro h hu he
    have hne := bearer_ne_empty _ h
    simp [extractUserContext, hne, h, hu, he]

/-- Concrete headers of a fully-valid request, for instantiating claims. -/
def sampleOkHeaders : List (String × String) :=
  [("Authorization", "Bearer tok123"), ("X-User-ID", "u1"),
   ("X-User-Email", "u1@example.com"), ("X-User-Name", "U One")]

/-- Witness for C1 at a concrete fully-valid request. -/
theorem C1_extraction_ordered_classification_w :
    hasPfx ((mkRequest "GET" "/sse" sampleOkHeaders).header "Authorization") "Bearer " = true
  ∧ (mkRequest "GET" "/sse" sampleOkHeaders).header "X-User-ID" ≠ ""
  ∧ (mkRequest "GET" "/sse" sampleOkHeaders).header "X-User-Email" ≠ ""
  ∧ extractUserContext (mkRequest "GET" "/sse" sampleOkHeaders) = Except.ok
      { UserID := "u1", Email := "u1@example.com", Name := "U One", SessionID := "",
        Token := "tok123", RequestID := "" } := by
  refine ⟨by decide, by decide, by decide, ?_⟩
  have h := (C1_extraction_ordered_classification (mkRequest "GET" "/sse" sampleOkHeaders)).2.2.2
    (by decide) (by decide) (by decide)
  rw [h]
  decide

/-- Claim C9: extraction is a deterministic pure function of the six
identity headers — two requests agreeing on them (whatever their method,
path, remote address or other headers) extract identically. -/
theorem C9_extraction_pure (r1 r2 : Request)
    (h : ∀ k ∈ identityHeaders, r1.header k = r2.header k) :
    extractUserContext r1 = extractUserContext r2 := by
  have ha := h "Authorization" (by simp [identityHeaders])
  have hu := h "X-User-ID" (by simp [identityHeaders])
  have he := h "X-User-Email" (by simp [identityHeaders])
  have hn := h "X-User-Name" (by simp [identityHeaders])
  have hs := h "X-Session-ID" (by simp [identityHeaders])
  have hg := h "X-Gateway-Request-ID" (by simp [identityHeaders])
  simp only [extractUserContext, ha, hu, he, hn, hs, hg]

/-- Witness for C9: two requests with different methods, paths, remote use
and extra headers but equal identity headers extract identically. -/
theorem C9_extraction_pure_w :
    (∀ k ∈ identityHeaders,
      (mkRequest "GET" "/a" (("X-Custom", "1") :: sampleOkHeaders)).header k =
      (mkRequest "POST" "/b" (("Other", "2") :: sampleOkHeaders)).header k)
  ∧ extractUserContext (mkRequest "GET" "/a" (("X-Custom", "1") :: sampleOkHeaders)) =
      extractUserContext (mkRequest "POST" "/b" (("Other", "2") :: sampleOkHeaders)) := by
  refine ⟨by decide, ?_⟩
  exact C9_extraction_pure _ _ (by decide)

/-- Claim C10: the bearer-scheme check is an exact, case-sensitive prefix
match on "Bearer " — lowercase, uppercase, or space-less variants fail with
the malformed-credential error, while "Bearer " alone succeeds with an
empty token when the identity claims are present. -/
theorem C10_bearer_match_case_sensitive (r : Request) :
    (r.header "Authorization" ≠ "" →
      hasPfx (r.header "Authorization") "Bearer " = false →
      extractUserContext r = Except.error "invalid Authorization header format")
  ∧ extractUserContext (mkRequest "GET" "/sse"
      [("Authorization", "bearer abc"), ("X-User-ID", "u"), ("X-User-Email", "e")]) =
      Except.error "invalid Authorization header format"
  ∧ extractUserContext (mkRequest "GET" "/sse"
      [("Authorization", "BEARER abc"), ("X-User-ID", "u"), ("X-User-Email", "e")]) =
      Except.error "invalid Authorization header format"
  ∧ extractUserContext (mkRequest "GET" "/sse"
      [("Authorization", "Bearer"), ("X-User-ID", "u"), ("X-User-Email", "e")]) =
      Except.error "invalid Authorization header format"
  ∧ extractUserContext (mkRequest "GET" "/sse"
      [("Authorization", "Bearer "), ("X-User-ID", "u"), ("X-User-Email", "e")]) =
      Except.ok { UserID := "u", Email := "e", Name := "", SessionID := "",
                  Token := "", RequestID := "" } := by
  refine ⟨?_, by decide, by decide, by decide, by decide⟩
  intro h1 h2
  simp [extractUserContext, h1, h2]

/-- Witness for C10 at a wrong-scheme concrete request. -/
theorem C10_bearer_match_case_sensitive_w :
    (mkRequest "POST" "/message" [("Authorization", "Token abc")]).header "Authorization" ≠ ""
  ∧ hasPfx ((mkRequest "POST" "/message" [("Authorization", "Token abc")]).header
      "Authorization") "Bearer " = false
  ∧ extractUserContext (mkRequest "POST" "/message" [("Authorization", "Token abc")]) =
      Except.error "invalid Authorization header format" := by
  refine ⟨by decide, by decide, ?_⟩
  exact (C10_bearer_match_case_sensitive
    (mkRequest "POST" "/message" [("Authorization", "Token abc")])).1 (by decide) (by decide)

/-- Claim C2: under the strict policy, every extraction failure is answered
with HTTP 401 and the exact JSON body echoing the failure reason, and the
downstream handler is never invoked (the gate's output does not depend on
it); every extraction success invokes the downstream handler with the
identity record attached to the request context. -/
theorem C2_strict_gate (next : Handler) (r : Request) (ctx : Context) :
    (∀ e, extractUserContext r = Except.error e →
      AuthenticationMiddleware next r ctx ResponseWriter.empty =
        { status := some 401,
          headers := [("Content-Type", "application/json")],
          body := "\x7b\"error\":\"authentication required\",\"message\":\"" ++ e ++ "\"\x7d" }
      ∧ (∀ next2 : Handler,
          AuthenticationMiddleware next2 r ctx ResponseWriter.empty =
          AuthenticationMiddleware next r ctx ResponseWriter.empty))
  ∧ (∀ u, extractUserContext r = Except.ok u →
      AuthenticationMiddleware next r ctx ResponseWriter.empty =
        next r (WithUserContext ctx u) ResponseWriter.empty) := by
  refine ⟨?_, ?_⟩
  · intro e he
    refine ⟨?_, ?_⟩
    · simp [AuthenticationMiddleware, he, authFailureBody, ResponseWriter.empty,
        ResponseWriter.setHeader, ResponseWriter.writeHeader, ResponseWriter.write,
        emptyStr_append]
    · intro next2
      simp [AuthenticationMiddleware, he]
  · intro u hu
    simp [AuthenticationMiddleware, hu]

/-- Witness for C2 at a concrete request with no Authorization header. -/
theorem C2_strict_gate_w :
    extractUserContext (mkRequest "GET" "/sse" []) =
      Except.error "missing Authorization header"
  ∧ AuthenticationMiddleware probeHandler (mkRequest "GET" "/sse" []) Context.background
      ResponseWriter.empty =
      { status := some 401,
        headers := [("Content-Type", "application/json")],
        body := "\x7b\"error\":\"authentication required\",\"message\":\"" ++
          "missing Authorization header" ++ "\"\x7d" } := by
  refine ⟨by decide, ?_⟩
  exact ((C2_strict_gate probeHandler (mkRequest "GET" "/sse" []) Context.background).1
    "missing Authorization header" (by decide)).1

/-- Claim C3: the identity record reachable via context lookup is either
fully absent or fully populated — a successful extraction always carries a
non-empty subject identifier, a non-empty email, and the credential from a
bearer Authorization header, and it is the only thing ever attached; on
failure neither middleware attaches anything (strict never reaches the
downstream handler, optional forwards the untouched context, and lookup on
an untouched context reports absent/false). -/
theorem C3_record_atomicity (r : Request) (ctx : Context) (w : ResponseWriter)
    (next : Handler) :
    (∀ u, extractUserContext r = Except.ok u →
      u.UserID ≠ "" ∧ u.Email ≠ "" ∧
      r.header "Authorization" = "Bearer " ++ u.Token ∧
      GetUserContext (WithUserContext ctx u) = (some u, true))
  ∧ (∀ e, extractUserContext r = Except.error e →
      (∀ next2 : Handler,
        AuthenticationMiddleware next r ctx w = AuthenticationMiddleware next2 r ctx w)
      ∧ OptionalAuthenticationMiddleware next r ctx w = next r ctx w
      ∧ GetUserContext Context.background = (none, false)) := by
  refine ⟨?_, ?_⟩
  · intro u hu
    rw [extractUserContext_ok_iff] at hu
    obtain ⟨h1, h2, h3, h4, h5⟩ := hu
    subst h5
    refine ⟨h3, h4, ?_, ?_⟩
    · exact hasPfx_recover _ _ h2
    · simp [GetUserContext, WithUserContext, Context.withValue]
  · intro e he
    refine ⟨?_, ?_, ?_⟩
    · intro next2
      simp [AuthenticationMiddleware, he]
    · simp [OptionalAuthenticationMiddleware, he]
    · simp [GetUserContext, Context.background]

/-- Witness for C3 at a concrete successful request and a concrete failing
request. -/
theorem C3_record_atomicity_w :
    extractUserContext (mkRequest "GET" "/sse" sampleOkHeaders) = Except.ok
      { UserID := "u1", Email := "u1@example.com", Name := "U One", SessionID := "",
        Token := "tok123", RequestID := "" }
  ∧ ("u1" : String) ≠ "" ∧ ("u1@example.com" : String) ≠ ""
  ∧ (mkRequest "GET" "/sse" sampleOkHeaders).header "Authorization" = "Bearer " ++ "tok123"
  ∧ GetUserContext (WithUserContext Context.background
      { UserID := "u1", Email := "u1@example.com", Name := "U One", SessionID := "",
        Token := "tok123", RequestID := "" }) =
      (some { UserID := "u1", Email := "u1@example.com", Name := "U One", SessionID := "",
              Token := "tok123", RequestID := "" }, true)
  ∧ extractUserContext (mkRequest "GET" "/sse" [("Authorization", "Bearer tok123"),
      ("X-User-ID", "u1")]) =
      Except.error "missing required user context headers (X-User-ID or X-User-Email)"
  ∧ OptionalAuthenticationMiddleware probeHandler
      (mkRequest "GET" "/sse" [("Authorization", "Bearer tok123"), ("X-User-ID", "u1")])
      Context.background ResponseWriter.empty =
      probeHandler (mkRequest "GET" "/sse" [("Authorization", "Bearer tok123"),
        ("X-User-ID", "u1")]) Context.background ResponseWriter.empty
  ∧ GetUserContext Context.background = (none, false) := by
  have hok := (C3_record_atomicity (mkRequest "GET" "/sse" sampleOkHeaders)
    Context.background ResponseWriter.empty probeHandler).1
    { UserID := "u1", Email := "u1@example.com", Name := "U One", SessionID := "",
      Token := "tok123", RequestID := "" } (by decide)
  have herr := (C3_record_atomicity
    (mkRequest "GET" "/sse" [("Authorization", "Bearer tok123"), ("X-User-ID", "u1")])
    Context.background ResponseWriter.empty probeHandler).2
    "missing required user context headers (X-User-ID or X-User-Email)" (by decide)
  exact ⟨by decide, hok.1, hok.2.1, hok.2.2.1, hok.2.2.2, by decide, herr.2.1, herr.2.2⟩

/-- Claim C4: under the optional policy, every extraction failure still
invokes the downstream handler, with the context and writer passed through
untouched (so no identity is attached — lookup on an untouched fresh
context reports absent/false — and no 401 or any error output is written by
the gate); on success the record is attached exactly as under the strict
policy. -/
theorem C4_optional_gate (next : Handler) (r : Request) (ctx : Context)
    (w : ResponseWriter) :
    (∀ e, extractUserContext r = Except.error e →
      OptionalAuthenticationMiddleware next r ctx w = next r ctx w
      ∧ GetUserContext Context.background = (none, false))
  ∧ (∀ u, extractUserContext r = Except.ok u →
      OptionalAuthenticationMiddleware next r ctx w = next r (WithUserContext ctx u) w
      ∧ OptionalAuthenticationMiddleware next r ctx w =
          AuthenticationMiddleware next r ctx w) := by
  refine ⟨?_, ?_⟩
  · intro e he
    refine ⟨?_, ?_⟩
    · simp [OptionalAuthenticationMiddleware, he]
    · simp [GetUserContext, Context.background]
  · intro u hu
    refine ⟨?_, ?_⟩
    · simp [OptionalAuthenticationMiddleware, hu]
    · simp [OptionalAuthenticationMiddleware, AuthenticationMiddleware, hu]

/-- Witness for C4 at a concrete request with no Authorization header: the
downstream handler runs on the untouched context and sees no identity. -/
theorem C4_optional_gate_w :
    extractUserContext (mkRequest "GET" "/sse" []) =
      Except.error "missing Authorization header"
  ∧ OptionalAuthenticationMiddleware probeHandler (mkRequest "GET" "/sse" [])
      Context.background ResponseWriter.empty =
      probeHandler (mkRequest "GET" "/sse" []) Context.background ResponseWriter.empty
  ∧ GetUserContext Context.background = (none, false)
  ∧ OptionalAuthenticationMiddleware probeHandler (mkRequest "GET" "/sse" [])
      Context.background ResponseWriter.empty =
      { status := some 200, headers := [], body := "anon" } := by
  have h := (C4_optional_gate probeHandler (mkRequest "GET" "/sse" []) Context.background
    ResponseWriter.empty).1 "missing Authorization header" (by decide)
  refine ⟨by decide, h.1, h.2, ?_⟩
  rw [h.1]
  decide

/-- Claim C6: every request with a bearer credential and non-empty
X-User-ID and X-User-Email headers extracts a fully-populated record, the
strict gate hands the downstream handler a context on which lookup returns
(record, true); lookup always returns the pair of record and presence
boolean — (some record, true) when attached, (none, false) on a context
with no attachment. -/
theorem C6_success_lookup (r : Request) (ctx : Context) (w : ResponseWriter)
    (next : Handler)
    (h1 : hasPfx (r.header "Authorization") "Bearer " = true)
    (h2 : r.header "X-User-ID" ≠ "") (h3 : r.header "X-User-Email" ≠ "") :
    (∃ u, extractUserContext r = Except.ok u
      ∧ AuthenticationMiddleware next r ctx w = next r (WithUserContext ctx u) w
      ∧ GetUserContext (WithUserContext ctx u) = (some u, true))
  ∧ (∀ ctx2 : Context,
      GetUserContext ctx2 = (none, false) ∨ ∃ v, GetUserContext ctx2 = (some v, true))
  ∧ GetUserContext Context.background = (none, false) := by
  refine ⟨?_, ?_, ?_⟩
  · refine ⟨{ UserID := r.header "X-User-ID", Email := r.header "X-User-Email",
              Name := r.header "X-User-Name", SessionID := r.header "X-Session-ID",
              Token := trimPfx (r.header "Authorization") "Bearer ",
              RequestID := r.header "X-Gateway-Request-ID" }, ?_, ?_, ?_⟩
    · rw [extractUserContext_ok_iff]
      exact ⟨bearer_ne_empty _ h1, h1, h2, h3, rfl⟩
    · simp only [AuthenticationMiddleware]
      rw [(extractUserContext_ok_iff r _).mpr ⟨bearer_ne_empty _ h1, h1, h2, h3, rfl⟩]
    · simp [GetUserContext, WithUserContext, Context.withValue]
  · intro ctx2
    unfold GetUserContext
    cases ctx2 userContextKey with
    | none => exact Or.inl rfl
    | some v => exact Or.inr ⟨v, rfl⟩
  · simp [GetUserContext, Context.background]

/-- Witness for C6 at a concrete fully-valid request. -/
theorem C6_success_lookup_w :
    hasPfx ((mkRequest "GET" "/sse" sampleOkHeaders).header "Authorization") "Bearer " = true
  ∧ (mkRequest "GET" "/sse" sampleOkHeaders).header "X-User-ID" ≠ ""
  ∧ (mkRequest "GET" "/sse" sampleOkHeaders).header "X-User-Email" ≠ ""
  ∧ ((∃ u, extractUserContext (mkRequest "GET" "/sse" sampleOkHeaders) = Except.ok u
      ∧ AuthenticationMiddleware probeHandler (mkRequest "GET" "/sse" sampleOkHeaders)
          Context.background ResponseWriter.empty =
          probeHandler (mkRequest "GET" "/sse" sampleOkHeaders)
            (WithUserContext Context.background u) ResponseWriter.empty
      ∧ GetUserContext (WithUserContext Context.background u) = (some u, true))
    ∧ (∀ ctx2 : Context,
        GetUserContext ctx2 = (none, false) ∨ ∃ v, GetUserContext ctx2 = (some v, true))
    ∧ GetUserContext Context.background = (none, false)) := by
  refine ⟨by decide, by decide, by decide, ?_⟩
  exact C6_success_lookup (mkRequest "GET" "/sse" sampleOkHeaders) Context.background
    ResponseWriter.empty probeHandler (by decide) (by decide) (by decide)

/-- The three CORS headers addSimpleCORS stamps, with their exact values. -/
def corsStamped (w : ResponseWriter) : Prop :=
  w.getHeader "Access-Control-Allow-Origin" = some "*" ∧
  w.getHeader "Access-Control-Allow-Methods" = some "GET, POST, PUT, DELETE, OPTIONS" ∧
  w.getHeader "Access-Control-Allow-Headers" = some corsAllowHeaders

instance (w : ResponseWriter) : Decidable (corsStamped w) := by
  unfold corsStamped
  exact inferInstance

/-- Claim C7: the CORS envelope stamps, on every response (whatever the
path and method, and provided the downstream handler does not itself rewrite
those three headers, which none in this codebase does), the open
origin-allow header, the method allow-list GET, POST, PUT, DELETE, OPTIONS,
and the header allow-list naming exactly the seven gateway headers; every
OPTIONS request is answered 200 with an empty body immediately, the routed
handler (and hence any authentication check) never being consulted. -/
theorem C7_cors_envelope (next : Handler) (r : Request) (ctx : Context)
    (hnext : ∀ r2 ctx2 w2, corsStamped w2 → corsStamped (next r2 ctx2 w2)) :
    corsStamped (addSimpleCORS next r ctx ResponseWriter.empty)
  ∧ (r.method = "OPTIONS" →
      (addSimpleCORS next r ctx ResponseWriter.empty).status = some 200
      ∧ (addSimpleCORS next r ctx ResponseWriter.empty).body = ""
      ∧ (∀ next2 : Handler,
          addSimpleCORS next2 r ctx ResponseWriter.empty =
          addSimpleCORS next r ctx ResponseWriter.empty)) := by
  by_cases hm : r.method = "OPTIONS"
  · refine ⟨?_, ?_⟩
    · simp only [addSimpleCORS, hm, if_pos]
      decide
    · intro _
      refine ⟨?_, ?_, ?_⟩
      · simp only [addSimpleCORS, hm, if_pos]
        decide
      · simp only [addSimpleCORS, hm, if_pos]
        decide
      · intro next2
        simp only [addSimpleCORS, hm, if_pos]
  · refine ⟨?_, ?_⟩
    · simp only [addSimpleCORS, if_neg hm]
      exact hnext _ _ _ (by decide)
    · intro hc
      exact absurd hc hm

/-- Witness for C7: the probe handler leaves the CORS headers alone, and an
OPTIONS request is answered 200 with empty body and stamped headers. -/
theorem C7_cors_envelope_w :
    corsStamped (addSimpleCORS probeHandler (mkRequest "OPTIONS" "/anything" [])
      Context.background ResponseWriter.empty)
  ∧ (addSimpleCORS probeHandler (mkRequest "OPTIONS" "/anything" [])
      Context.background ResponseWriter.empty).status = some 200
  ∧ (addSimpleCORS probeHandler (mkRequest "OPTIONS" "/anything" [])
      Context.background ResponseWriter.empty).body = "" := by
  have hpres : ∀ r2 ctx2 w2, corsStamped w2 → corsStamped (probeHandler r2 ctx2 w2) := by
    intro r2 ctx2 w2 hw
    simpa [probeHandler, corsStamped, ResponseWriter.getHeader, ResponseWriter.write]
      using hw
  have h := C7_cors_envelope probeHandler (mkRequest "OPTIONS" "/anything" [])
    Context.background hpres
  exact ⟨h.1, (h.2 rfl).1, (h.2 rfl).2.1⟩

/-- Claim C8: GET /health answers 200 with the healthy JSON body, and GET
/status answers 200 with the running JSON body reporting the configured
version and host, authentication_required as the negation of the
allow-unauthenticated flag, the read-only flag and the current timestamp —
for every request with those methods and paths, independently of any
authentication headers. -/
theorem C8_health_status (cfg : SSEServerConfig) (allowUnauthenticated : Bool)
    (now : String) (sseH msgH : Handler) (r : Request) (ctx : Context) :
    (r.method = "GET" → r.path = "/health" →
      (serverHandler cfg allowUnauthenticated now sseH msgH r ctx
        ResponseWriter.empty).status = some 200
      ∧ (serverHandler cfg allowUnauthenticated now sseH msgH r ctx
          ResponseWriter.empty).body = healthBody now)
  ∧ (r.method = "GET" → r.path = "/status" →
      (serverHandler cfg allowUnauthenticated now sseH msgH r ctx
        ResponseWriter.empty).status = some 200
      ∧ (serverHandler cfg allowUnauthenticated now sseH msgH r ctx
          ResponseWriter.empty).body =
          statusBody cfg.version cfg.host (!allowUnauthenticated) cfg.readOnly now) := by
  refine ⟨?_, ?_⟩
  · intro hm hp
    have hno : r.method ≠ "OPTIONS" := by rw [hm]; decide
    simp [serverHandler, addSimpleCORS, hno, serveMuxHandler, hp, healthHandler,
      ResponseWriter.setHeader, ResponseWriter.writeHeader, ResponseWriter.write,
      ResponseWriter.empty, emptyStr_append]
  · intro hm hp
    have hno : r.method ≠ "OPTIONS" := by rw [hm]; decide
    simp [serverHandler, addSimpleCORS, hno, serveMuxHandler, hp, statusHandler,
      ResponseWriter.setHeader, ResponseWriter.writeHeader, ResponseWriter.write,
      ResponseWriter.empty, emptyStr_append]

/-- A concrete server configuration for instantiating claims. -/
def sampleCfg : SSEServerConfig :=
  { version := "1.0.0", host := "github.com", token := "", readOnly := false,
    listenAddr := ":8080", baseURL := "", basePath := "" }

/-- Witness for C8 at concrete GET /health and GET /status requests that
carry no authentication headers. -/
theorem C8_health_status_w :
    (serverHandler sampleCfg false "2026-02-03T04:05:06Z" probeHandler probeHandler
      (mkRequest "GET" "/health" []) Context.background ResponseWriter.empty).status =
      some 200
  ∧ (serverHandler sampleCfg false "2026-02-03T04:05:06Z" probeHandler probeHandler
      (mkRequest "GET" "/health" []) Context.background ResponseWriter.empty).body =
      healthBody "2026-02-03T04:05:06Z"
  ∧ (serverHandler sampleCfg false "2026-02-03T04:05:06Z" probeHandler probeHandler
      (mkRequest "GET" "/status" []) Context.background ResponseWriter.empty).status =
      some 200
  ∧ (serverHandler sampleCfg false "2026-02-03T04:05:06Z" probeHandler probeHandler
      (mkRequest "GET" "/status" []) Context.background ResponseWriter.empty).body =
      statusBody "1.0.0" "github.com" true false "2026-02-03T04:05:06Z" := by
  have hh := (C8_health_status sampleCfg false "2026-02-03T04:05:06Z" probeHandler
    probeHandler (mkRequest "GET" "/health" []) Context.background).1 rfl rfl
  have hs := (C8_health_status sampleCfg false "2026-02-03T04:05:06Z" probeHandler
    probeHandler (mkRequest "GET" "/status" []) Context.background).2 rfl rfl
  exact ⟨hh.1, hh.2, hs.1, hs.2⟩

/-- Counterexample to C5 as stated: a fatal accept-loop error does not take
the drain path at all — the controller exits immediately with the wrapped
error instead of draining first. -/
theorem C5_counterexample :
    (runServerSelect (RunEvent.listenerResult (some (GoError.other "accept tcp: listener failure")))
      none).isDrain = false
  ∧ runServerSelect (RunEvent.listenerResult (some (GoError.other "accept tcp: listener failure")))
      none = ServerOutcome.exitWithoutDrain "error running server: accept tcp: listener failure" := by
  exact ⟨rfl, by decide⟩

/-- Claim C5 as amended: a fatal accept-loop error (anything other than a
nil result or the shutdown-induced closed-listener value) makes the
controller return the wrapped listener error to the process caller
immediately, without entering the 30-second drain; the drain path is taken
only on a termination signal, a nil listener result, or the closed-listener
value. -/
theorem C5_listener_error_skips_drain (m : String) (shutdownErr : Option GoError) :
    runServerSelect (RunEvent.listenerResult (some (GoError.other m))) shutdownErr =
      ServerOutcome.exitWithoutDrain ("error running server: " ++ m)
  ∧ runServerSelect RunEvent.ctxDone shutdownErr =
      ServerOutcome.drainThenExit 30 shutdownErr
  ∧ runServerSelect (RunEvent.listenerResult (some GoError.errServerClosed)) shutdownErr =
      ServerOutcome.drainThenExit 30 shutdownErr
  ∧ runServerSelect (RunEvent.listenerResult none) shutdownErr =
      ServerOutcome.drainThenExit 30 shutdownErr :=
  ⟨rfl, rfl, rfl, rfl⟩

end GhMcp
